import Mathlib

/-!
Verification of the overload-aware function-documentation assembler in
`src/html/symbols/function.rs` of `deno_doc`.

The Rust source is shallowly embedded: each Rust function becomes a Lean
function over an explicit data model; external collaborators (markdown
rendering, type rendering, slug generation, the `DocEntryCtx` constructor,
`param_name`) are either abstracted into a record of pure functions or
modelled from the specification, as noted on each definition.
-/

namespace DenoDoc

/-- Opaque TypeScript type expression: the assembler never inspects it, only
passes it to the type-rendering collaborator. -/
structure TsTypeDef where
  repr : String
deriving DecidableEq

/-- Opaque source-location handle, passed through and never interpreted. -/
structure Location where
  repr : String
deriving DecidableEq

/-- A generic type-parameter definition; the assembler reads only its name
(`def.name` in `render_single_function`). -/
structure TypeParamDef where
  name : String
deriving DecidableEq

/-- Structured doc-comment tags, mirroring the `JsDocTag` variants the
assembler matches on (`Param`, `Return`, `Deprecated`); everything else is
collapsed into `other`. -/
inductive JsDocTag where
  | param (name : String) (doc : Option String) (optional : Bool) (default : Option String)
  | ret (doc : Option String)
  | deprecated (doc : Option String)
  | other (kind : String)
deriving DecidableEq

/-- A doc comment: free-text body plus ordered structured tags. -/
structure JsDoc where
  doc : Option String
  tags : List JsDocTag
deriving DecidableEq

mutual
/-- A positional parameter: a binding pattern plus an optional declared type
(`ts_type`), mirroring `crate::params::ParamDef`. -/
inductive ParamDef where
  | mk (pattern : ParamPatternDef) (tsType : Option TsTypeDef)

/-- Parameter binding patterns, mirroring the fields of
`crate::params::ParamPatternDef` that `function.rs` matches on:
each non-`assign` variant carries its own `optional` flag; `assign` carries
the wrapped parameter and the right-hand default expression text. -/
inductive ParamPatternDef where
  | identifier (name : String) (optional : Bool)
  | array (optional : Bool)
  | object (optional : Bool)
  | assign (left : ParamDef) (right : String)
end

def ParamDef.pattern : ParamDef → ParamPatternDef
  | .mk p _ => p

def ParamDef.tsType : ParamDef → Option TsTypeDef
  | .mk _ t => t

/-- A function declaration: the fields of `crate::function::FunctionDef`
read by `function.rs`. -/
structure FunctionDef where
  params : List ParamDef
  returnType : Option TsTypeDef
  hasBody : Bool
  typeParams : List TypeParamDef

/-- A doc node paired with its doc comment. The Rust code unwraps
`doc_node.function_def` (guaranteed present for function-shaped nodes, a
contract violation otherwise), so the field is modelled as total. -/
structure DocNodeWithContext where
  name : String
  functionDef : FunctionDef
  jsDoc : JsDoc
  location : Location

/-- The descriptive tags a parameter entry can carry (only `Optional`). -/
inductive Tag where
  | optional
deriving DecidableEq

/-- Modelled from the spec: `DocEntryCtx` from `crate::html::util` is outside
the provided source; per the data model it records id, display name, rendered
type text, tag set and optional doc text.  Its constructor is modelled as
capturing its arguments verbatim, including the type-parameter scope of the
render context it is given. -/
structure DocEntryCtx where
  id : String
  name : String
  nameHref : Option String
  content : String
  tags : List Tag
  jsDoc : Option String
  scope : List String
  location : Location
deriving DecidableEq

/-- Modelled from the spec: the content of a section is either a list of doc
entries (built by this assembler) or opaque collaborator-produced markup. -/
inductive SectionContentCtx where
  | docEntry (entries : List DocEntryCtx)
  | other (repr : String)
deriving DecidableEq

/-- Modelled from the spec: a titled section of an overload body. -/
structure SectionCtx where
  title : String
  content : SectionContentCtx
deriving DecidableEq

/-- Modelled from the spec: the per-overload body (`SymbolContentCtx`): id,
ordered sections, full doc-body markup. -/
structure SymbolContentCtx where
  id : String
  sections : List SectionCtx
  docs : Option String
deriving DecidableEq

/-- Modelled from the spec: the external collaborator interfaces of section 6,
as a record of pure functions.  Each collaborator that receives the
`RenderContext` in Rust here receives the context's current type-parameter
scope as its first argument. -/
structure Collaborators where
  renderMarkdownSummary : List String → String → String
  jsdocBodyToHtml : List String → JsDoc → Bool → Option String
  jsdocExamples : List String → JsDoc → Option SectionCtx
  renderTypeParamsSection : List String → JsDoc → List TypeParamDef → Location → Option SectionCtx
  renderTypeDef : List String → TsTypeDef → String
  renderTypeDefColon : List String → TsTypeDef → String
  typeParamsSummary : List String → List TypeParamDef → String
  renderParams : List String → List ParamDef → String
  nameToId : String → String → String

/-- The render context: the collaborator record plus the set of generic
type-parameter names currently in scope. -/
structure RenderContext where
  collab : Collaborators
  currentTypeParams : List String

/-- Embeds `RenderContext::with_current_type_params`: a copy of the context
with the scope replaced. -/
def RenderContext.withCurrentTypeParams (ctx : RenderContext) (tps : List String) :
    RenderContext :=
  { ctx with currentTypeParams := tps }

/-- Modelled from the spec: `crate::html::parameters::param_name` is outside
the provided source; per section 4.2 step 1 it resolves a display name and a
stable fragment label: the bound identifier for `identifier` patterns, a
placeholder label for `array`/`object` patterns, and recursion into `left`
for `assign`. -/
def param_name (param : ParamDef) (i : Nat) : String × String :=
  match param with
  | .mk pat _ =>
    match pat with
    | .identifier name _ => (name, name)
    | .array _ => ("unnamed " ++ toString i, "unnamed_" ++ toString i)
    | .object _ => ("unnamed " ++ toString i, "unnamed_" ++ toString i)
    | .assign left _ => param_name left i

/-- Embeds `render_css_for_fn`: the scoped style rule for one overload,
with literal braces written as escapes. -/
def render_css_for_fn (overloadId : String) (deprecated : Bool) : String :=
  let colors :=
    if deprecated then ("#D256460C", "#DC2626")
    else ("var(--ddoc-selection-selected-bg)", "var(--ddoc-selection-selected-border-color)")
  "\n#" ++ overloadId ++ " \x7b\n  display: none;\n\x7d\n#" ++ overloadId ++
    ":checked ~ *:last-child > :not(#" ++ overloadId ++ "_div) \x7b\n  display: none;\n\x7d\n#" ++
    overloadId ++ ":checked ~ div:first-of-type > label[for=\x27" ++ overloadId ++
    "\x27] \x7b\n  background-color: " ++ colors.1 ++
    ";\n  border: solid var(--ddoc-selection-border-width) " ++ colors.2 ++
    ";\n  cursor: unset;\n  padding: var(--ddoc-selection-padding); /* 1px less to counter the increased border */\n\x7d\n"

/-- One entry of `overloads_ctx` (`OverloadRenderCtx`). -/
structure OverloadRenderCtx where
  functionId : String
  overloadId : String
  additionalCss : String
  htmlAttrs : String
  name : String
  deprecated : Option String
  summary : String
  summaryDoc : Option String

/-- The assembler output (`FunctionCtx`): overload summaries and the
index-aligned overload bodies. -/
structure FunctionCtx where
  overloadsCtx : List OverloadRenderCtx
  functions : List SymbolContentCtx

/-- Rust's `Iterator::enumerate`, starting from a given index. -/
def enumFrom {α : Type _} : Nat → List α → List (Nat × α)
  | _, [] => []
  | n, a :: as => (n, a) :: enumFrom (n + 1) as

/-- Rust's `Iterator::enumerate`. -/
def enumerate {α : Type _} (l : List α) : List (Nat × α) :=
  enumFrom 0 l

/-- Embeds the `param_docs` map of `render_single_function`: the Rust code
collects `(name, (doc, optional, default))` for every `Param` tag into a
`HashMap`; on duplicate names later insertions overwrite earlier ones, so a
lookup returns the payload of the last `Param` tag bearing that name. -/
def paramDocsLookup (tags : List JsDocTag) (name : String) :
    Option (Option String × Bool × Option String) :=
  tags.reverse.findSome? (fun tag =>
    match tag with
    | .param n doc opt dflt => if n = name then some (doc, opt, dflt) else none
    | _ => none)

/-- Modelled from the spec: `DocEntryCtx::new` captures its arguments,
recording the scope of the render context it receives. -/
def DocEntryCtx.new (ctx : RenderContext) (id name : String) (nameHref : Option String)
    (content : String) (tags : List Tag) (jsDoc : Option String) (location : Location) :
    DocEntryCtx :=
  { id := id, name := name, nameHref := nameHref, content := content, tags := tags,
    jsDoc := jsDoc, scope := ctx.currentTypeParams, location := location }

/-- The visually distinct default suffix appended to a rendered type when a
default value was resolved. -/
def defaultSuffix (d : String) : String :=
  "<span><span class=\"font-normal\"> = </span>" ++ d ++ "</span>"

/-- Embeds the per-parameter closure of `render_single_function`: builds one
parameter entry from the positional parameter, its index, and the doc-tag
map of the declaration's comment. -/
def paramEntry (ctx : RenderContext) (docNode : DocNodeWithContext) (overloadId : String)
    (i : Nat) (param : ParamDef) : DocEntryCtx :=
  let name := (param_name param i).1
  let strName := (param_name param i).2
  let id := ctx.collab.nameToId overloadId ("parameters_" ++ strName)
  let docInfo := paramDocsLookup docNode.jsDoc.tags name
  let default0 : Option String :=
    match docInfo with
    | some info => info.2.2
    | none => none
  let docOptional : Bool :=
    match docInfo with
    | some info => info.2.1
    | none => false
  let defaultAndType : Option String × Option TsTypeDef :=
    match param.pattern with
    | .assign left right => (default0 <|> some right, left.tsType)
    | _ => (default0, param.tsType)
  let tsType0 :=
    (defaultAndType.2.map (ctx.collab.renderTypeDefColon ctx.currentTypeParams)).getD ""
  let tsType :=
    match defaultAndType.1 with
    | some d => tsType0 ++ defaultSuffix d
    | none => tsType0
  let patternOptional : Bool :=
    match param.pattern with
    | .identifier _ o => o
    | .array o => o
    | .object o => o
    | .assign _ _ => false
  let tags : List Tag :=
    if patternOptional || defaultAndType.1.isSome || docOptional then [Tag.optional] else []
  DocEntryCtx.new ctx id name none tsType tags
    (docInfo.bind (fun info => info.1)) docNode.location

/-- Embeds `render_function_return_type`: no return-type annotation yields no
entry; otherwise the annotation is rendered and packaged with the doc text of
the first `Return` tag that carries one. -/
def render_function_return_type (ctx : RenderContext) (def_ : FunctionDef)
    (docNode : DocNodeWithContext) (overloadId : String) : Option DocEntryCtx :=
  def_.returnType.map (fun returnType =>
    let id := ctx.collab.nameToId overloadId "return"
    let returnTypeDoc := docNode.jsDoc.tags.findSome? (fun tag =>
      match tag with
      | .ret doc => doc
      | _ => none)
    DocEntryCtx.new ctx id "" none
      (ctx.collab.renderTypeDef ctx.currentTypeParams returnType)
      [] returnTypeDoc docNode.location)

/-- The per-overload scoped context built at the top of
`render_single_function`: the incoming context with the scope replaced by the
declaration's own type-parameter names. -/
def scopedCtx (ctx : RenderContext) (docNode : DocNodeWithContext) : RenderContext :=
  ctx.withCurrentTypeParams (docNode.functionDef.typeParams.map TypeParamDef.name)

/-- The ordered parameter entries of one declaration. -/
def paramsEntries (ctx : RenderContext) (docNode : DocNodeWithContext)
    (overloadId : String) : List DocEntryCtx :=
  (enumerate docNode.functionDef.params).map (fun p => paramEntry ctx docNode overloadId p.1 p.2)

/-- The optional Examples section (delegated to the jsdoc collaborator). -/
def examplesSection (ctx : RenderContext) (docNode : DocNodeWithContext) : Option SectionCtx :=
  ctx.collab.jsdocExamples ctx.currentTypeParams docNode.jsDoc

/-- The optional TypeParameters section (delegated to the type collaborator). -/
def typeParamsSection (ctx : RenderContext) (docNode : DocNodeWithContext) : Option SectionCtx :=
  ctx.collab.renderTypeParamsSection ctx.currentTypeParams docNode.jsDoc
    docNode.functionDef.typeParams docNode.location

/-- The always-appended Return Type section: the single return entry when the
declaration has a return-type annotation, else zero entries. -/
def returnSection (ctx : RenderContext) (docNode : DocNodeWithContext)
    (overloadId : String) : SectionCtx :=
  { title := "Return Type",
    content := SectionContentCtx.docEntry
      (render_function_return_type ctx docNode.functionDef docNode overloadId).toList }

/-- Embeds `render_single_function`: the full per-overload body, built in the
declaration's own type-parameter scope. -/
def render_single_function (ctx : RenderContext) (docNode : DocNodeWithContext)
    (overloadId : String) : SymbolContentCtx :=
  let ctx := scopedCtx ctx docNode
  let params := paramsEntries ctx docNode overloadId
  { id := overloadId ++ "_div",
    sections :=
      (examplesSection ctx docNode).toList ++
      (typeParamsSection ctx docNode).toList ++
      (if params.isEmpty then []
       else [{ title := "Parameters", content := SectionContentCtx.docEntry params }]) ++
      [returnSection ctx docNode overloadId],
    docs := ctx.collab.jsdocBodyToHtml ctx.currentTypeParams docNode.jsDoc false }

/-- Embeds `render_function_summary`: the one-line signature summary. -/
def render_function_summary (functionDef : FunctionDef) (ctx : RenderContext) : String :=
  let returnType :=
    (functionDef.returnType.map (ctx.collab.renderTypeDefColon ctx.currentTypeParams)).getD ""
  ctx.collab.typeParamsSummary ctx.currentTypeParams functionDef.typeParams ++ "(" ++
    ctx.collab.renderParams ctx.currentTypeParams functionDef.params ++ ")" ++ returnType

/-- The deprecation markup of a declaration: the first `Deprecated` tag,
rendered (empty markup when the tag carries no doc). -/
def deprecatedOf (ctx : RenderContext) (docNode : DocNodeWithContext) : Option String :=
  docNode.jsDoc.tags.findSome? (fun tag =>
    match tag with
    | .deprecated doc =>
      some ((doc.map (ctx.collab.renderMarkdownSummary ctx.currentTypeParams)).getD "")
    | _ => none)

/-- The stable overload identifier: slug of `"function"` and `name_index`. -/
def overloadIdOf (ctx : RenderContext) (i : Nat) (docNode : DocNodeWithContext) : String :=
  ctx.collab.nameToId "function" (docNode.name ++ "_" ++ toString i)

/-- The stable function identifier, shared by all overloads of one name. -/
def functionIdOf (ctx : RenderContext) (docNode : DocNodeWithContext) : String :=
  ctx.collab.nameToId "function" docNode.name

/-- Embeds the `OverloadRenderCtx` construction of `FunctionCtx::new` for one
emitted declaration at ordinal index `i`. -/
def overloadRender (ctx : RenderContext) (i : Nat) (docNode : DocNodeWithContext) :
    OverloadRenderCtx :=
  let deprecated := deprecatedOf ctx docNode
  let overloadId := overloadIdOf ctx i docNode
  let id := functionIdOf ctx docNode
  let css := render_css_for_fn overloadId deprecated.isSome
  let summaryDoc :=
    if !(docNode.functionDef.hasBody && i == 0) then
      ctx.collab.jsdocBodyToHtml ctx.currentTypeParams docNode.jsDoc true
    else none
  let htmlAttrs := if i == 0 then "checked" else ""
  { functionId := id, overloadId := overloadId, additionalCss := css,
    htmlAttrs := htmlAttrs, name := docNode.name, deprecated := deprecated,
    summary := render_function_summary docNode.functionDef ctx, summaryDoc := summaryDoc }

/-- The emission filter of `FunctionCtx::new`: a declaration is skipped
exactly when it carries a body and is not at index 0. -/
def keepDecl (p : Nat × DocNodeWithContext) : Bool :=
  !(p.2.functionDef.hasBody && p.1 != 0)

/-- The emitted (index, declaration) pairs of a group, in order. -/
def emittedDecls (docNodes : List DocNodeWithContext) : List (Nat × DocNodeWithContext) :=
  (enumerate docNodes).filter keepDecl

/-- Embeds `FunctionCtx::new`: one pass over the enumerated group, skipping
bodied non-first declarations, pushing an overload summary and an overload
body per surviving declaration. -/
def FunctionCtx.new (ctx : RenderContext) (docNodes : List DocNodeWithContext) : FunctionCtx :=
  let emitted := emittedDecls docNodes
  { overloadsCtx := emitted.map (fun p => overloadRender ctx p.1 p.2),
    functions := emitted.map (fun p => render_single_function ctx p.2 (overloadIdOf ctx p.1 p.2)) }

/-! ### Helper lemmas about enumeration and emission -/

theorem enumFrom_length {α : Type _} : ∀ (n : Nat) (l : List α),
    (enumFrom n l).length = l.length
  | _, [] => rfl
  | n, _ :: as => by simp [enumFrom, enumFrom_length (n + 1) as]

theorem fst_le_of_mem_enumFrom {α : Type _} {p : Nat × α} :
    ∀ {n : Nat} {l : List α}, p ∈ enumFrom n l → n ≤ p.1 := by
  intro n l
  induction l generalizing n with
  | nil => intro h; cases h
  | cons a as ih =>
    intro h
    rcases List.mem_cons.1 h with h | h
    · subst h; exact Nat.le_refl n
    · exact Nat.le_of_succ_le (ih h)

theorem enumFrom_getElem? {α : Type _} :
    ∀ (n k : Nat) (l : List α), (enumFrom n l)[k]? = l[k]?.map (fun a => (n + k, a)) := by
  intro n k l
  induction l generalizing n k with
  | nil => simp [enumFrom]
  | cons a as ih =>
    cases k with
    | zero => simp [enumFrom]
    | succ k =>
      simp only [enumFrom, List.getElem?_cons_succ, ih (n + 1) k]
      cases as[k]? <;> simp [Nat.add_assoc, Nat.add_comm 1 k]

theorem keepDecl_zero (d : DocNodeWithContext) : keepDecl (0, d) = true := by
  simp [keepDecl]

theorem keepDecl_pos {i : Nat} (hi : 0 < i) (d : DocNodeWithContext) :
    keepDecl (i, d) = !d.functionDef.hasBody := by
  have : (i != 0) = true := by
    cases i with
    | zero => exact absurd hi (by simp)
    | succ k => rfl
  simp [keepDecl, this]

theorem emittedDecls_cons (d : DocNodeWithContext) (ds : List DocNodeWithContext) :
    emittedDecls (d :: ds) = (0, d) :: (enumFrom 1 ds).filter keepDecl := by
  rw [emittedDecls, enumerate, enumFrom, List.filter_cons_of_pos (keepDecl_zero d)]

theorem overloadRender_htmlAttrs (ctx : RenderContext) (i : Nat) (d : DocNodeWithContext) :
    (overloadRender ctx i d).htmlAttrs = if i == 0 then "checked" else "" := rfl

theorem overloadRender_summaryDoc (ctx : RenderContext) (i : Nat) (d : DocNodeWithContext) :
    (overloadRender ctx i d).summaryDoc =
      if !(d.functionDef.hasBody && i == 0) then
        ctx.collab.jsdocBodyToHtml ctx.currentTypeParams d.jsDoc true
      else none := rfl

/-! ### Sample data used by witnesses and counterexamples -/

/-- A concrete instance of the external collaborators, used to evaluate the
assembler on concrete inputs. -/
def sampleCollab : Collaborators where
  renderMarkdownSummary := fun _ s => s
  jsdocBodyToHtml := fun _ jd _ => jd.doc
  jsdocExamples := fun _ _ => none
  renderTypeParamsSection := fun _ _ _ _ => none
  renderTypeDef := fun _ t => t.repr
  renderTypeDefColon := fun _ t => ": " ++ t.repr
  typeParamsSummary := fun _ _ => ""
  renderParams := fun _ _ => ""
  nameToId := fun ns label => ns ++ "_" ++ label

def sampleCtx : RenderContext where
  collab := sampleCollab
  currentTypeParams := []

def mkNode (nm : String) (body : Bool) (doc : Option String) (tags : List JsDocTag)
    (params : List ParamDef) (returnType : Option TsTypeDef) : DocNodeWithContext :=
  { name := nm
    functionDef :=
      { params := params, returnType := returnType, hasBody := body, typeParams := [] }
    jsDoc := { doc := doc, tags := tags }
    location := { repr := "src" } }

def nodeA : DocNodeWithContext := mkNode "f" false (some "a doc") [] [] none

def nodeB : DocNodeWithContext := mkNode "f" false (some "b doc") [] [] none

def nodeImpl : DocNodeWithContext := mkNode "f" true (some "impl doc") [] [] none

def nodesTwo : List DocNodeWithContext := [nodeA, nodeB]

def nodesThree : List DocNodeWithContext := [nodeA, nodeB, nodeImpl]

/-! ### Claim C3: emission policy -/

/-- Claim C3: in every group the declaration at index 0 is emitted (it heads
the output); a declaration at positive index is emitted iff it carries no
body; a single-declaration group emits its sole declaration regardless of
body status; and when exactly one positive-index declaration carries a body,
the number of emitted pairs is the group size minus one. -/
theorem emission_policy (ctx : RenderContext) (docNodes : List DocNodeWithContext)
    (hne : docNodes ≠ []) :
    ((FunctionCtx.new ctx docNodes).overloadsCtx.head? =
      some (overloadRender ctx 0 (docNodes.head hne))) ∧
    (∀ i e, 0 < i →
      ((i, e) ∈ emittedDecls docNodes ↔
        (i, e) ∈ enumerate docNodes ∧ e.functionDef.hasBody = false)) ∧
    (∀ e, docNodes = [e] → (FunctionCtx.new ctx docNodes).overloadsCtx.length = 1) ∧
    (((enumerate docNodes).filter
        (fun p => p.2.functionDef.hasBody && p.1 != 0)).length = 1 →
      (FunctionCtx.new ctx docNodes).overloadsCtx.length = docNodes.length - 1) := by
  refine ⟨?_, ?_, ?_, ?_⟩
  · cases docNodes with
    | nil => exact absurd rfl hne
    | cons d ds =>
      simp [FunctionCtx.new, emittedDecls_cons]
  · intro i e hi
    rw [emittedDecls, List.mem_filter, keepDecl_pos hi]
    simp
  · intro e he
    subst he
    simp [FunctionCtx.new, emittedDecls_cons, enumFrom]
  · intro hone
    have hsplit := List.length_eq_length_filter_add (l := enumerate docNodes) keepDecl
    have hcongr : (enumerate docNodes).filter (fun p => !keepDecl p) =
        (enumerate docNodes).filter (fun p => p.2.functionDef.hasBody && p.1 != 0) := by
      apply List.filter_congr
      intro p _
      simp [keepDecl]
    have hlen : (enumerate docNodes).length = docNodes.length := enumFrom_length 0 docNodes
    have : docNodes.length = (emittedDecls docNodes).length + 1 := by
      rw [← hlen, hsplit, emittedDecls]
      rw [show ((enumerate docNodes).filter (fun p => !keepDecl p)).length = 1 by
        rw [hcongr]; exact hone]
    simp only [FunctionCtx.new, List.length_map]
    omega

/-- Witness for C3 on a concrete three-declaration group whose last
declaration carries the body: two pairs are emitted. -/
theorem emission_policy_witness :
    (FunctionCtx.new sampleCtx nodesThree).overloadsCtx.length = 3 - 1 :=
  (emission_policy sampleCtx nodesThree (by simp [nodesThree])).2.2.2 rfl

/-! ### Claim C4: unique default selection -/

/-- Claim C4: in every non-empty group exactly one emitted overload summary
has html attributes "checked", it is the head (ordinal index 0), and every
later emitted overload has empty html attributes. -/
theorem default_selected_unique (ctx : RenderContext) (docNodes : List DocNodeWithContext)
    (hne : docNodes ≠ []) :
    (((FunctionCtx.new ctx docNodes).overloadsCtx.filter
        (fun o => o.htmlAttrs == "checked")).length = 1) ∧
    ((FunctionCtx.new ctx docNodes).overloadsCtx.head?.map (fun o => o.htmlAttrs) =
      some "checked") ∧
    (∀ k o, 0 < k → (FunctionCtx.new ctx docNodes).overloadsCtx[k]? = some o →
      o.htmlAttrs = "") := by
  cases docNodes with
  | nil => exact absurd rfl hne
  | cons d ds =>
    have hrest : ∀ p ∈ (enumFrom 1 ds).filter keepDecl,
        (overloadRender ctx p.1 p.2).htmlAttrs = "" := by
      intro p hp
      have h1 : 1 ≤ p.1 := fst_le_of_mem_enumFrom (List.mem_filter.1 hp).1
      rw [overloadRender_htmlAttrs]
      have : (p.1 == 0) = false := by
        cases hp1 : p.1 with
        | zero => omega
        | succ k => rfl
      rw [this]
      rfl
    refine ⟨?_, ?_, ?_⟩
    · simp only [FunctionCtx.new, emittedDecls_cons, List.map_cons, List.filter_cons]
      rw [show ((overloadRender ctx 0 d).htmlAttrs == "checked") = true from rfl]
      rw [if_pos rfl]
      simp only [List.length_cons, Nat.add_left_eq_self, List.length_eq_zero,
        List.filter_eq_nil_iff]
      intro o ho
      rcases List.mem_map.1 ho with ⟨p, hp, rfl⟩
      rw [hrest p hp]
      decide
    · simp [FunctionCtx.new, emittedDecls_cons, overloadRender_htmlAttrs]
    · intro k o hk hko
      cases k with
      | zero => omega
      | succ k =>
        simp only [FunctionCtx.new, emittedDecls_cons, List.map_cons,
          List.getElem?_cons_succ, List.getElem?_map] at hko
        rcases Option.map_eq_some'.1 hko with ⟨p, hp, rfl⟩
        exact hrest p (List.getElem?_mem hp)

/-- Witness for C4 on a concrete two-declaration group. -/
theorem default_selected_unique_witness :
    ((FunctionCtx.new sampleCtx nodesTwo).overloadsCtx.filter
      (fun o => o.htmlAttrs == "checked")).length = 1 :=
  (default_selected_unique sampleCtx nodesTwo (by simp [nodesTwo])).1

/-! ### Claim C9: deterministic identifiers -/

/-- Claim C9: assembly is a pure function, so running it twice on identical
input yields byte-identical output; and the identifiers of the overload
emitted at output position k for declaration d at ordinal index i are the
slug of ("function", name_i) and the slug of ("function", name). -/
theorem identifier_assembly (ctx : RenderContext) (docNodes : List DocNodeWithContext) :
    (FunctionCtx.new ctx docNodes).overloadsCtx =
      (FunctionCtx.new ctx docNodes).overloadsCtx ∧
    (∀ (k i : Nat) (d : DocNodeWithContext), (emittedDecls docNodes)[k]? = some (i, d) →
      ((FunctionCtx.new ctx docNodes).overloadsCtx[k]?).map
          (fun o => (o.overloadId, o.functionId)) =
        some (ctx.collab.nameToId "function" (d.name ++ "_" ++ toString i),
          ctx.collab.nameToId "function" d.name)) := by
  refine ⟨rfl, ?_⟩
  intro k i d hk
  simp only [FunctionCtx.new, List.getElem?_map, hk, Option.map_some']
  rfl

/-- Witness for C9: the ids of the first emitted overload of a concrete
two-declaration group. -/
theorem identifier_assembly_witness :
    ((FunctionCtx.new sampleCtx nodesTwo).overloadsCtx[0]?).map
        (fun o => (o.overloadId, o.functionId)) =
      some ("function_f_0", "function_f") :=
  (identifier_assembly sampleCtx nodesTwo).2 0 0 nodeA rfl

/-! ### Claim C2: when the summary doc is omitted (corrected) -/

def bodiedHead : DocNodeWithContext := mkNode "g" true (some "impl doc") [] [] none

def plainOverload : DocNodeWithContext := mkNode "g" false (some "sig doc") [] [] none

/-- Claim C2 fails as stated: in a two-declaration group whose index-0
declaration carries a body, the emitted index-0 summary doc is still bypassed
(none) although the group has more than one declaration and the doc-body
renderer yields markup for that declaration. -/
theorem summary_doc_counterexample :
    [bodiedHead, plainOverload].length = 2 ∧
    (FunctionCtx.new sampleCtx [bodiedHead, plainOverload]).overloadsCtx.map
        (fun o => o.summaryDoc) = [none, some "sig doc"] ∧
    sampleCollab.jsdocBodyToHtml [] bodiedHead.jsDoc true = some "impl doc" :=
  ⟨rfl, rfl, rfl⟩

/-- Claim C2 (amended): the summary-doc markup of an emitted declaration is
bypassed (forced to none) precisely when that declaration carries a body and
sits at ordinal index 0 — regardless of the size of its group; in every other
emitted case it is the doc-body markup the jsdoc collaborator produces from
the declaration's doc comment. -/
theorem summary_doc_omission (ctx : RenderContext) (docNodes : List DocNodeWithContext)
    (k i : Nat) (d : DocNodeWithContext)
    (hk : (emittedDecls docNodes)[k]? = some (i, d)) :
    ((FunctionCtx.new ctx docNodes).overloadsCtx[k]?).map (fun o => o.summaryDoc) =
      some (if d.functionDef.hasBody ∧ i = 0 then none
        else ctx.collab.jsdocBodyToHtml ctx.currentTypeParams d.jsDoc true) := by
  simp only [FunctionCtx.new, List.getElem?_map, hk, Option.map_some']
  rw [overloadRender_summaryDoc]
  cases hb : d.functionDef.hasBody with
  | false => simp [hb]
  | true =>
    cases i with
    | zero => simp [hb]
    | succ n => simp [hb]

/-- Witness for C2 on a concrete group: the bodied index-0 declaration of a
two-declaration group has its summary doc bypassed. -/
theorem summary_doc_omission_witness :
    ((FunctionCtx.new sampleCtx [bodiedHead, plainOverload]).overloadsCtx[0]?).map
        (fun o => o.summaryDoc) = some none :=
  summary_doc_omission sampleCtx [bodiedHead, plainOverload] 0 0 bodiedHead rfl

/-! ### Claim C6: return type entry -/

def nodeRet : DocNodeWithContext :=
  mkNode "h" false none [] [] (some { repr := "string" })

/-- Claim C6: the overload body always ends with a Return Type section; a
declaration with no return-type annotation yields no return entry (the
section has zero entries), and a declaration with an annotation yields a
section with exactly that one entry. -/
theorem return_type_entry (ctx : RenderContext) (docNode : DocNodeWithContext)
    (oid : String) :
    ((render_single_function ctx docNode oid).sections.getLast? =
      some (returnSection (scopedCtx ctx docNode) docNode oid)) ∧
    (docNode.functionDef.returnType = none →
      render_function_return_type (scopedCtx ctx docNode) docNode.functionDef docNode oid =
        none ∧
      returnSection (scopedCtx ctx docNode) docNode oid =
        { title := "Return Type", content := SectionContentCtx.docEntry [] }) ∧
    (∀ t, docNode.functionDef.returnType = some t →
      ∃ e, render_function_return_type (scopedCtx ctx docNode) docNode.functionDef docNode
          oid = some e ∧
        returnSection (scopedCtx ctx docNode) docNode oid =
          { title := "Return Type", content := SectionContentCtx.docEntry [e] }) := by
  refine ⟨?_, ?_, ?_⟩
  · cases hE : examplesSection (scopedCtx ctx docNode) docNode <;>
      cases hT : typeParamsSection (scopedCtx ctx docNode) docNode <;>
      cases hP : (paramsEntries (scopedCtx ctx docNode) docNode oid).isEmpty <;>
      simp [render_single_function, hE, hT, hP]
  · intro hr
    constructor
    · simp [render_function_return_type, hr]
    · simp [returnSection, render_function_return_type, hr]
  · intro t hr
    cases ho : render_function_return_type (scopedCtx ctx docNode) docNode.functionDef
        docNode oid with
    | none =>
      exfalso
      rw [render_function_return_type, hr] at ho
      simp at ho
    | some e => exact ⟨e, rfl, by simp [returnSection, ho]⟩

/-- Witness for C6: a concrete annotated declaration ends with a Return Type
section, and a concrete unannotated one builds no return entry. -/
theorem return_type_entry_witness :
    ((render_single_function sampleCtx nodeRet "oid").sections.getLast? =
      some (returnSection (scopedCtx sampleCtx nodeRet) nodeRet "oid")) ∧
    render_function_return_type (scopedCtx sampleCtx nodeA) nodeA.functionDef nodeA "oid" =
      none :=
  ⟨(return_type_entry sampleCtx nodeRet "oid").1,
   ((return_type_entry sampleCtx nodeA "oid").2.1 rfl).1⟩

/-! ### Claim C7: fixed section order -/

/-- Claim C7: the sections of an overload body appear in the fixed order
Examples (when the jsdoc collaborator yields a block), TypeParameters (when
the type-parameter renderer yields one), Parameters (exactly when the
parameter-entry list is non-empty, which happens exactly when the declaration
has parameters), then Return Type last. -/
theorem section_order (ctx : RenderContext) (docNode : DocNodeWithContext) (oid : String) :
    ((render_single_function ctx docNode oid).sections =
      (examplesSection (scopedCtx ctx docNode) docNode).toList ++
      (typeParamsSection (scopedCtx ctx docNode) docNode).toList ++
      (if docNode.functionDef.params.isEmpty then []
       else [{ title := "Parameters",
               content := SectionContentCtx.docEntry
                 (paramsEntries (scopedCtx ctx docNode) docNode oid) }]) ++
      [returnSection (scopedCtx ctx docNode) docNode oid]) ∧
    (paramsEntries (scopedCtx ctx docNode) docNode oid).length =
      docNode.functionDef.params.length := by
  have hempty : (paramsEntries (scopedCtx ctx docNode) docNode oid).isEmpty =
      docNode.functionDef.params.isEmpty := by
    cases h : docNode.functionDef.params <;>
      simp [paramsEntries, enumerate, enumFrom, h]
  constructor
  · simp only [render_single_function]
    rw [hempty]
  · simp only [paramsEntries, List.length_map, enumerate]
    exact enumFrom_length 0 _

/-! ### Claim C8: per-overload type-parameter scope isolation -/

/-- Claim C8: the scope built for one overload carries exactly that
overload's declared generic-parameter names; every parameter entry of the
body records that scope; the body of an overload is insensitive to whatever
scope the incoming context carried; and the body emitted for an (index,
declaration) pair is independent of the other declarations of its group. -/
theorem type_param_scope_isolation (ctx : RenderContext) (docNode : DocNodeWithContext)
    (oid : String) :
    (∀ s, s ∈ (scopedCtx ctx docNode).currentTypeParams ↔
      s ∈ docNode.functionDef.typeParams.map TypeParamDef.name) ∧
    (∀ e ∈ paramsEntries (scopedCtx ctx docNode) docNode oid,
      e.scope = docNode.functionDef.typeParams.map TypeParamDef.name) ∧
    (∀ tps, render_single_function (ctx.withCurrentTypeParams tps) docNode oid =
      render_single_function ctx docNode oid) ∧
    (∀ (docNodes docNodes' : List DocNodeWithContext) (k k' : Nat)
        (p : Nat × DocNodeWithContext),
      (emittedDecls docNodes)[k]? = some p →
      (emittedDecls docNodes')[k']? = some p →
      (FunctionCtx.new ctx docNodes).functions[k]? =
        (FunctionCtx.new ctx docNodes').functions[k']?) := by
  refine ⟨fun s => Iff.rfl, ?_, fun tps => rfl, ?_⟩
  · intro e he
    rcases List.mem_map.1 he with ⟨p, _, rfl⟩
    rfl
  · intro docNodes docNodes' k k' p hk hk'
    simp only [FunctionCtx.new, List.getElem?_map, hk, hk']

/-- Witness for C8: a declaration appearing at the same emitted position of
two different concrete groups renders to the same body. -/
theorem type_param_scope_isolation_witness :
    (FunctionCtx.new sampleCtx nodesThree).functions[0]? =
      (FunctionCtx.new sampleCtx nodesTwo).functions[0]? :=
  (type_param_scope_isolation sampleCtx nodeA "x").2.2.2 nodesThree nodesTwo 0 0 (0, nodeA)
    rfl rfl

/-! ### Parameter-level helper definitions and lemmas -/

/-- The pattern variant's own optional flag; an assign pattern carries none
(the `matches!` arm of the source covers only array, identifier, object). -/
def patternOwnOptional : ParamPatternDef → Bool
  | .identifier _ o => o
  | .array o => o
  | .object o => o
  | .assign _ _ => false

/-- The default value declared by the doc tag matched to a parameter. -/
def docTagDefault (tags : List JsDocTag) (param : ParamDef) (i : Nat) : Option String :=
  (paramDocsLookup tags (param_name param i).1).bind (fun info => info.2.2)

/-- The optionality flag declared by the doc tag matched to a parameter. -/
def docTagOptional (tags : List JsDocTag) (param : ParamDef) (i : Nat) : Bool :=
  ((paramDocsLookup tags (param_name param i).1).map (fun info => info.2.1)).getD false

/-- The resolved default of a parameter: the doc-tag default, falling back to
the assign pattern's right expression text (mirroring
`default.or(Some(right.to_string()))` in the source). -/
def resolvedDefault (tags : List JsDocTag) (param : ParamDef) (i : Nat) : Option String :=
  match param.pattern with
  | .assign _ right => docTagDefault tags param i <|> some right
  | _ => docTagDefault tags param i

theorem paramEntry_jsDoc (ctx : RenderContext) (docNode : DocNodeWithContext)
    (oid : String) (i : Nat) (param : ParamDef) :
    (paramEntry ctx docNode oid i param).jsDoc =
      (paramDocsLookup docNode.jsDoc.tags (param_name param i).1).bind
        (fun info => info.1) := rfl

theorem paramEntry_tags (ctx : RenderContext) (docNode : DocNodeWithContext)
    (oid : String) (i : Nat) (param : ParamDef) :
    (paramEntry ctx docNode oid i param).tags =
      if patternOwnOptional param.pattern ||
          (resolvedDefault docNode.jsDoc.tags param i).isSome ||
          docTagOptional docNode.jsDoc.tags param i
      then [Tag.optional] else [] := by
  cases param with
  | mk pat t =>
    cases hl : paramDocsLookup docNode.jsDoc.tags (param_name (.mk pat t) i).1 with
    | none =>
      cases pat <;>
        simp [paramEntry, DocEntryCtx.new, patternOwnOptional, docTagDefault,
          docTagOptional, resolvedDefault, ParamDef.pattern, hl]
    | some info =>
      cases pat <;>
        simp [paramEntry, DocEntryCtx.new, patternOwnOptional, docTagDefault,
          docTagOptional, resolvedDefault, ParamDef.pattern, hl]

theorem paramEntry_congr (ctx : RenderContext) (oid : String) (i : Nat) (param : ParamDef)
    (d₁ d₂ : DocNodeWithContext)
    (hloc : d₁.location = d₂.location)
    (hlk : paramDocsLookup d₁.jsDoc.tags (param_name param i).1 =
      paramDocsLookup d₂.jsDoc.tags (param_name param i).1) :
    paramEntry ctx d₁ oid i param = paramEntry ctx d₂ oid i param := by
  simp only [paramEntry, DocEntryCtx.new, hlk, hloc]

theorem resolvedDefault_assign (tags : List JsDocTag) (left : ParamDef) (right : String)
    (t : Option TsTypeDef) (i : Nat) :
    resolvedDefault tags (.mk (.assign left right) t) i =
      some ((docTagDefault tags (.mk (.assign left right) t) i).getD right) := by
  cases h : docTagDefault tags (.mk (.assign left right) t) i <;>
    simp [resolvedDefault, ParamDef.pattern, h]

theorem paramEntry_assign_content (ctx : RenderContext) (docNode : DocNodeWithContext)
    (oid : String) (i : Nat) (left : ParamDef) (right : String) (t : Option TsTypeDef) :
    (paramEntry ctx docNode oid i (.mk (.assign left right) t)).content =
      ((left.tsType.map (ctx.collab.renderTypeDefColon ctx.currentTypeParams)).getD "") ++
        defaultSuffix
          ((docTagDefault docNode.jsDoc.tags (.mk (.assign left right) t) i).getD right) := by
  cases hl : paramDocsLookup docNode.jsDoc.tags (param_name (.mk (.assign left right) t) i).1 with
  | none =>
    simp [paramEntry, DocEntryCtx.new, docTagDefault, ParamDef.pattern, ParamDef.tsType, hl]
  | some info =>
    cases hd : info.2.2 <;>
      simp [paramEntry, DocEntryCtx.new, docTagDefault, ParamDef.pattern, ParamDef.tsType,
        hl, hd]

/-! ### Claim C5: when the Optional tag is attached -/

/-- Claim C5: a parameter entry carries the Optional tag exactly when the
pattern variant's own optional flag is set, or a default value was resolved
(from the signature literal or the doc tag), or the matched doc tag marks the
parameter optional; otherwise its tag set is empty. -/
theorem optional_tag_iff (ctx : RenderContext) (docNode : DocNodeWithContext)
    (oid : String) (i : Nat) (param : ParamDef) :
    ((paramEntry ctx docNode oid i param).tags = [Tag.optional] ∨
      (paramEntry ctx docNode oid i param).tags = []) ∧
    ((paramEntry ctx docNode oid i param).tags = [Tag.optional] ↔
      (patternOwnOptional param.pattern = true ∨
        (resolvedDefault docNode.jsDoc.tags param i).isSome = true ∨
        docTagOptional docNode.jsDoc.tags param i = true)) := by
  rw [paramEntry_tags]
  cases h : (patternOwnOptional param.pattern ||
      (resolvedDefault docNode.jsDoc.tags param i).isSome ||
      docTagOptional docNode.jsDoc.tags param i) with
  | false =>
    rw [if_neg (by simp [h])]
    have := h
    simp only [Bool.or_eq_false_iff] at this
    simp [this.1.1, this.1.2, this.2]
  | true =>
    rw [if_pos (by simp [h])]
    have := h
    simp only [Bool.or_eq_true] at this
    simp [or_assoc] at this
    simp [this]

/-! ### Claim C1: default-value precedence (corrected) -/

def destructureDefaultParam : ParamDef :=
  ParamDef.mk (.assign (.mk (.object false) none) "\x7b\x7d") none

def c1Node : DocNodeWithContext :=
  mkNode "k" false none [JsDocTag.param "unnamed 0" none false (some "42")]
    [destructureDefaultParam] none

/-- Claim C1 fails as stated: an object-destructure parameter whose Assign
pattern carries the literal default text of two braces, but whose matched doc
tag declares default 42, resolves default text 42 — the doc-tag default, not
the Assign pattern's right expression text. -/
theorem default_precedence_counterexample :
    (paramEntry sampleCtx c1Node "oid" 0 destructureDefaultParam).content =
      defaultSuffix "42" ∧
    (paramsEntries (scopedCtx sampleCtx c1Node) c1Node "oid").map (fun e => e.content) =
      [defaultSuffix "42"] ∧
    resolvedDefault c1Node.jsDoc.tags destructureDefaultParam 0 = some "42" ∧
    "42" ≠ "\x7b\x7d" :=
  ⟨rfl, rfl, rfl, by decide⟩

/-- Claim C1 (amended): for a parameter whose pattern is Assign, a default is
always resolved and the Optional tag always attached; the resolved default
text equals the matched doc-tag default when one exists and the Assign
pattern's right expression text only otherwise — the doc-tag default takes
precedence over the signature literal.  In particular an object-destructure
parameter with a literal default carries Optional, and its default text
equals that literal exactly when no doc-tag default exists. -/
theorem assign_default_resolution (ctx : RenderContext) (docNode : DocNodeWithContext)
    (oid : String) (i : Nat) (left : ParamDef) (right : String) (t : Option TsTypeDef) :
    (docTagDefault docNode.jsDoc.tags (.mk (.assign left right) t) i = none →
      resolvedDefault docNode.jsDoc.tags (.mk (.assign left right) t) i = some right) ∧
    (∀ d, docTagDefault docNode.jsDoc.tags (.mk (.assign left right) t) i = some d →
      resolvedDefault docNode.jsDoc.tags (.mk (.assign left right) t) i = some d) ∧
    (∀ d, resolvedDefault docNode.jsDoc.tags (.mk (.assign left right) t) i = some d →
      (paramEntry ctx docNode oid i (.mk (.assign left right) t)).content =
        ((left.tsType.map (ctx.collab.renderTypeDefColon ctx.currentTypeParams)).getD "") ++
          defaultSuffix d) ∧
    (paramEntry ctx docNode oid i (.mk (.assign left right) t)).tags = [Tag.optional] := by
  refine ⟨?_, ?_, ?_, ?_⟩
  · intro h
    rw [resolvedDefault_assign, h]
    rfl
  · intro d h
    rw [resolvedDefault_assign, h]
    rfl
  · intro d h
    rw [resolvedDefault_assign] at h
    rw [paramEntry_assign_content, Option.some_inj.1 h]
  · rw [paramEntry_tags, if_pos]
    rw [resolvedDefault_assign]
    simp

/-- Witness for C1 (amended) on a concrete Assign parameter with no doc-tag
default: the literal is used as the fallback and Optional is attached. -/
theorem assign_default_resolution_witness :
    resolvedDefault [] (.mk (.assign (.mk (.identifier "x" false) none) "7") none) 0 =
      some "7" ∧
    (paramEntry sampleCtx (mkNode "w" false none [] [] none) "oid" 0
      (.mk (.assign (.mk (.identifier "x" false) none) "7") none)).tags = [Tag.optional] :=
  ⟨(assign_default_resolution sampleCtx (mkNode "w" false none [] [] none) "oid" 0
      (.mk (.identifier "x" false) none) "7" none).1 rfl,
   (assign_default_resolution sampleCtx (mkNode "w" false none [] [] none) "oid" 0
      (.mk (.identifier "x" false) none) "7" none).2.2.2⟩

/-! ### Claim C10: the last same-named Param tag wins -/

def isParamTagNamed (n : String) : JsDocTag → Bool
  | .param m _ _ _ => m == n
  | _ => false

theorem paramDocsLookup_append_last (pre post : List JsDocTag) (n : String)
    (doc : Option String) (opt : Bool) (dflt : Option String)
    (hpost : ∀ tag ∈ post, isParamTagNamed n tag = false) :
    paramDocsLookup (pre ++ JsDocTag.param n doc opt dflt :: post) n =
      some (doc, opt, dflt) := by
  rw [paramDocsLookup, List.reverse_append, List.reverse_cons, List.append_assoc,
    List.findSome?_append, List.findSome?_append]
  have hnone : ∀ tag ∈ post.reverse,
      (match tag with
        | JsDocTag.param m d o df => if m = n then some (d, o, df) else none
        | _ => (none : Option (Option String × Bool × Option String))) = none := by
    intro tag htag
    have := hpost tag (List.mem_reverse.1 htag)
    cases tag with
    | param m d o df =>
      simp [isParamTagNamed] at this
      simp [this]
    | ret d => rfl
    | deprecated d => rfl
    | other k => rfl
  rw [List.findSome?_eq_none_iff.2 hnone]
  simp

/-- Claim C10: when a doc comment contains several Param tags with the same
resolved name, the parameter entry takes its doc text, optionality and
doc-tag default from the last such tag, and the tags preceding it have no
effect at all on the entry. -/
theorem last_param_tag_wins (ctx : RenderContext) (oid : String) (i : Nat)
    (param : ParamDef) (nm : String) (fd : FunctionDef) (body : Option String)
    (loc : Location) (pre post : List JsDocTag) (n : String) (doc : Option String)
    (opt : Bool) (dflt : Option String)
    (hn : (param_name param i).1 = n)
    (hpost : ∀ tag ∈ post, isParamTagNamed n tag = false) :
    (paramDocsLookup (pre ++ JsDocTag.param n doc opt dflt :: post) n =
      some (doc, opt, dflt)) ∧
    (∀ pre' : List JsDocTag,
      paramEntry ctx
          { name := nm, functionDef := fd,
            jsDoc := { doc := body, tags := pre ++ JsDocTag.param n doc opt dflt :: post },
            location := loc } oid i param =
        paramEntry ctx
          { name := nm, functionDef := fd,
            jsDoc := { doc := body, tags := pre' ++ JsDocTag.param n doc opt dflt :: post },
            location := loc } oid i param) ∧
    ((paramEntry ctx
        { name := nm, functionDef := fd,
          jsDoc := { doc := body, tags := pre ++ JsDocTag.param n doc opt dflt :: post },
          location := loc } oid i param).jsDoc = doc) ∧
    (docTagDefault (pre ++ JsDocTag.param n doc opt dflt :: post) param i = dflt) ∧
    (docTagOptional (pre ++ JsDocTag.param n doc opt dflt :: post) param i = opt) := by
  have hmain := paramDocsLookup_append_last pre post n doc opt dflt hpost
  refine ⟨hmain, ?_, ?_, ?_, ?_⟩
  · intro pre'
    apply paramEntry_congr
    · rfl
    · rw [hn, hmain, paramDocsLookup_append_last pre' post n doc opt dflt hpost]
  · rw [paramEntry_jsDoc, hn, hmain]
    rfl
  · rw [docTagDefault, hn, hmain]
    rfl
  · rw [docTagOptional, hn, hmain]
    rfl

/-- Witness for C10 on a concrete comment with two Param tags named x: the
second (last) tag supplies the doc text, optionality and default. -/
theorem last_param_tag_wins_witness :
    paramDocsLookup
        ([JsDocTag.param "x" (some "old") false none] ++
          JsDocTag.param "x" (some "new") true (some "1") :: []) "x" =
      some (some "new", true, some "1") :=
  (last_param_tag_wins sampleCtx "oid" 0 (.mk (.identifier "x" false) none) "w"
    { params := [], returnType := none, hasBody := false, typeParams := [] } none
    { repr := "src" } [JsDocTag.param "x" (some "old") false none] [] "x" (some "new") true
    (some "1") rfl (by simp)).1

end DenoDoc
